import Mathlib

/-
Verification of the GPIO LCD driver (src/lcd-mod.c) against its design
specification.  The driver is embedded shallowly: each C function is
translated into a Lean function that returns the finite trace of
host-collaborator calls it performs (GPIO requests/frees, direction and
level changes, delays, lock operations, device-registration calls),
together with its integer return value where the claims need it.

Physical pin numbers and the logical-signal mapping are taken verbatim
from the source: RS = 4, RW = 17, E = 18, DB4 = 22, DB5 = 23, DB6 = 24,
DB7 = 25.  Delays are recorded in microseconds (mdelay ms becomes
delayUs (ms * 1000)).  printk logging calls are omitted from the traces:
no claim concerns them and they touch no modelled state.
-/

namespace LcdMod

/-- One observable call from the driver to a host collaborator
(GPIO subsystem, delay primitives, spinlock, device-registration
framework), in the order the C code issues them. -/
inductive Event where
  | gpioRequest (pin : Nat) (label : String)
  | gpioFree (pin : Nat)
  | gpioDirOut (pin : Nat) (level : Nat)
  | gpioSet (pin : Nat) (level : Nat)
  | delayUs (us : Nat)
  | lockAcquire
  | lockRelease
  | lockInit
  | registerChrdev
  | classCreate
  | deviceCreate
  | deviceDestroy
  | classDestroy
  | unregisterChrdev
  deriving DecidableEq

/-- The physical levels of the seven GPIO lines the driver drives.
All lines start at level 0 (req_gpio configures each as output 0). -/
structure PinState where
  p4 : Nat := 0
  p17 : Nat := 0
  p18 : Nat := 0
  p22 : Nat := 0
  p23 : Nat := 0
  p24 : Nat := 0
  p25 : Nat := 0
  deriving DecidableEq

/-- Effect of a single gpio_set_value call on the pin levels. -/
def setPin (s : PinState) (p v : Nat) : PinState :=
  if p = 4 then { s with p4 := v }
  else if p = 17 then { s with p17 := v }
  else if p = 18 then { s with p18 := v }
  else if p = 22 then { s with p22 := v }
  else if p = 23 then { s with p23 := v }
  else if p = 24 then { s with p24 := v }
  else if p = 25 then { s with p25 := v }
  else s

/-- Replay a trace over the pin levels (only gpioSet changes them). -/
def applyTrace (s : PinState) : List Event → PinState
  | [] => s
  | Event.gpioSet p v :: rest => applyTrace (setPin s p v) rest
  | _ :: rest => applyTrace s rest

/- ---------------------------------------------------------------
The command words.  In the C source each is a uint8_t[8] of 0/1 values,
index 0 first on the wire; lcd_write sends indices 0..3 (the high
nibble) and then 4..7 (the low nibble).
--------------------------------------------------------------- -/

def reset : Fin 8 → Nat := ![0,0,0,0,0,0,0,0]

def clear : Fin 8 → Nat := ![0,0,0,0,0,0,0,1]

def home : Fin 8 → Nat := ![0,0,0,0,0,0,1,0]

def entry : Fin 8 → Nat := ![0,0,0,0,0,1,1,0]

def displayon : Fin 8 → Nat := ![0,0,0,0,1,1,1,1]

def displayoff : Fin 8 → Nat := ![0,0,0,0,1,0,0,0]

def functionset : Fin 8 → Nat := ![0,0,1,0,0,0,0,0]

def startup1 : Fin 8 → Nat := ![0,0,1,1,0,0,1,1]

def startup2 : Fin 8 → Nat := ![0,0,1,1,0,0,1,0]

def a : Fin 8 → Nat := ![0,1,0,1,0,0,0,1]

/-- Embedding of lcd_write (lcd-mod.c lines 127-151): drive DB7..DB4
(pins 25,24,23,22) with data[0..3], pulse E (pin 18) with 50 us holds,
then data[4..7] and a second identical pulse.  The C function always
returns 0; only its trace matters to the claims. -/
def lcd_write (data : Fin 8 → Nat) : List Event :=
  [ Event.gpioSet 25 (data 0), Event.gpioSet 24 (data 1),
    Event.gpioSet 23 (data 2), Event.gpioSet 22 (data 3),
    Event.gpioSet 18 1, Event.delayUs 50,
    Event.gpioSet 18 0, Event.delayUs 50,
    Event.gpioSet 25 (data 4), Event.gpioSet 24 (data 5),
    Event.gpioSet 23 (data 6), Event.gpioSet 22 (data 7),
    Event.gpioSet 18 1, Event.delayUs 50,
    Event.gpioSet 18 0, Event.delayUs 50 ]

/-- Embedding of lcd_init (lcd-mod.c lines 104-124): take the lock,
wait 15 ms, send the fixed command sequence, raise RS (pin 4), send the
test character, lower RS, release the lock.  Always returns 0. -/
def lcd_init : List Event :=
  [Event.lockAcquire, Event.delayUs 15000]
  ++ lcd_write reset ++ [Event.delayUs 35000]
  ++ lcd_write startup1 ++ lcd_write startup2
  ++ lcd_write functionset ++ lcd_write displayoff
  ++ lcd_write clear ++ lcd_write entry
  ++ lcd_write displayon ++ lcd_write home
  ++ [Event.gpioSet 4 1, Event.delayUs 35000]
  ++ lcd_write a
  ++ [Event.delayUs 35000, Event.gpioSet 4 0, Event.lockRelease]

/-- Embedding of lcd_open (lcd-mod.c lines 80-82): no calls, return 0. -/
def lcd_open : List Event × Int := ([], 0)

/-- Embedding of lcd_release (lcd-mod.c lines 84-96): under the lock,
gpio_free each of the seven pins; return 0. -/
def lcd_release : List Event × Int :=
  ([Event.lockAcquire,
    Event.gpioFree 4, Event.gpioFree 17, Event.gpioFree 18,
    Event.gpioFree 22, Event.gpioFree 23, Event.gpioFree 24,
    Event.gpioFree 25, Event.lockRelease], 0)

/-- Linux EINVAL errno value. -/
def EINVAL : Int := 22

/-- Device-session state as the spec describes it; the ioctl entry is
handed a session (the file pointer in C) but never inspects it. -/
inductive SessionState where
  | Closed
  | Open
  deriving DecidableEq

/-- Embedding of lcd_ioctl (lcd-mod.c lines 76-78): for any session,
command and argument, perform nothing and return -EINVAL. -/
def lcd_ioctl (st : SessionState) (cmd : Nat) (arg : Nat) :
    List Event × Int :=
  ([], -EINVAL)

/-- Embedding of req_gpio (lcd-mod.c lines 154-197).  The environment
env tells, for each pin, whether gpio_request succeeds.  Faithful to
the source: each failing request returns -1 immediately, with no
gpio_free of the lines already requested; on success all seven pins are
configured as outputs at level 0 and 0 is returned. -/
def req_gpio (env : Nat → Bool) : List Event × Int :=
  let t := [Event.gpioRequest 4 "RS"]
  if env 4 = false then (t, -1) else
  let t := t ++ [Event.gpioRequest 17 "RW"]
  if env 17 = false then (t, -1) else
  let t := t ++ [Event.gpioRequest 18 "E"]
  if env 18 = false then (t, -1) else
  let t := t ++ [Event.gpioRequest 22 "DB4"]
  if env 22 = false then (t, -1) else
  let t := t ++ [Event.gpioRequest 23 "DB5"]
  if env 23 = false then (t, -1) else
  let t := t ++ [Event.gpioRequest 24 "DB6"]
  if env 24 = false then (t, -1) else
  let t := t ++ [Event.gpioRequest 25 "DB7"]
  if env 25 = false then (t, -1) else
  let t := t ++
    [Event.gpioDirOut 4 0, Event.gpioDirOut 17 0, Event.gpioDirOut 18 0,
     Event.gpioDirOut 22 0, Event.gpioDirOut 23 0, Event.gpioDirOut 24 0,
     Event.gpioDirOut 25 0]
  (t, 0)

/-- The seven physical lines, in acquisition order. -/
def linePins : List Nat := [4, 17, 18, 22, 23, 24, 25]

/-- A pin was successfully requested somewhere in the trace
(its gpio_request ran and the environment granted it). -/
def requestedOk (env : Nat → Bool) (t : List Event) (p : Nat) : Bool :=
  t.any fun e =>
    match e with
    | Event.gpioRequest q _ => q == p && env q
    | _ => false

/-- The trace frees the pin somewhere. -/
def freedIn (t : List Event) (p : Nat) : Bool :=
  t.any fun e =>
    match e with
    | Event.gpioFree q => q == p
    | _ => false

/-- The pin is still held when the trace ends: granted by the host and
never freed.  This is what ownership means at the acquire boundary. -/
def heldAfter (env : Nat → Bool) (t : List Event) (p : Nat) : Bool :=
  requestedOk env t p && !(freedIn t p)

/- ---------------------------------------------------------------
Protocol-level views of a trace: which nibbles the enable pulses latch
into the controller, and how long the enable line is held around each
pulse.
--------------------------------------------------------------- -/

/-- The nibbles a trace latches into the controller, each tagged with
the RS level at the moment of the pulse.  A nibble is recorded at every
rising edge of E (pin 18 driven to 1): the controller samples DB7..DB4
(pins 25,24,23,22) across that pulse.  Levels are tracked from the
starting pin state s. -/
def latchedNibbles (s : PinState) : List Event → List (Nat × List Nat)
  | [] => []
  | Event.gpioSet p v :: rest =>
    if p = 18 then
      if v = 1 then
        (s.p4, [s.p25, s.p24, s.p23, s.p22])
          :: latchedNibbles (setPin s p v) rest
      else latchedNibbles (setPin s p v) rest
    else latchedNibbles (setPin s p v) rest
  | _ :: rest => latchedNibbles s rest

/-- Total delay from the head of the trace until the next signal change
(gpioSet), together with that change if one exists.  Lock and
registration events are not signal changes and are skipped. -/
def delayToNextSet : List Event → Nat × Option Event
  | [] => (0, none)
  | Event.delayUs n :: rest =>
    let r := delayToNextSet rest
    (n + r.1, r.2)
  | Event.gpioSet p v :: _ => (0, some (Event.gpioSet p v))
  | _ :: rest => delayToNextSet rest

/-- Every enable pulse in the trace is well formed: after E rises the
next signal change is E falling and comes at least 50 us later, and
after E falls at least 50 us of delay pass before any further signal
change (or the trace ends after at least 50 us of settle). -/
def enPulsesOk : List Event → Bool
  | [] => true
  | Event.gpioSet p v :: rest =>
    (if p = 18 then
      if v = 1 then
        let r := delayToNextSet rest
        decide (50 ≤ r.1) && decide (r.2 = some (Event.gpioSet 18 0))
      else decide (50 ≤ (delayToNextSet rest).1)
    else true) && enPulsesOk rest
  | _ :: rest => enPulsesOk rest

/- ---------------------------------------------------------------
Module init (rpigpio_lcd_minit, lcd-mod.c lines 200-241).
--------------------------------------------------------------- -/

/-- Embedding of rpigpio_lcd_minit.  The booleans say whether
register_chrdev, class_create and device_create succeed; envGpio drives
req_gpio.  Error codes of the host collaborators are abstracted to -1;
ptrErrDev stands for PTR_ERR(dev) evaluated on the VALID device pointer,
which is what the source returns on the req_gpio failure path (the value
is whatever the pointer bits happen to be — it is a parameter because the
embedding cannot know it).  Faithful to the source: the req_gpio failure
path calls class_destroy and unregister_chrdev but never device_destroy,
and the spinlock is initialised only after lcd_init has already used it. -/
def rpigpio_lcd_minit (envChrdev envClass envDev : Bool)
    (envGpio : Nat → Bool) (ptrErrDev : Int) : List Event × Int :=
  let t := [Event.registerChrdev]
  if envChrdev = false then (t, -1) else
  let t := t ++ [Event.classCreate]
  if envClass = false then (t ++ [Event.unregisterChrdev], -1) else
  let t := t ++ [Event.deviceCreate]
  if envDev = false then
    (t ++ [Event.classDestroy, Event.unregisterChrdev], -1) else
  let r := req_gpio envGpio
  let t := t ++ r.1
  if r.2 < 0 then
    (t ++ [Event.classDestroy, Event.unregisterChrdev], ptrErrDev) else
  let t := t ++ lcd_init ++ [Event.lockInit]
  (t, 0)

/-- The user-visible device node exists at the end of the trace: it was
created and never destroyed. -/
def deviceNodeExists (t : List Event) : Bool :=
  t.contains Event.deviceCreate && !(t.contains Event.deviceDestroy)

/-- High nibble of a command word as driven on DB7,DB6,DB5,DB4. -/
def hiNib (w : Fin 8 → Nat) : List Nat := [w 0, w 1, w 2, w 3]

/-- Low nibble of a command word as driven on DB7,DB6,DB5,DB4. -/
def loNib (w : Fin 8 → Nat) : List Nat := [w 4, w 5, w 6, w 7]

/-- Number of rising edges of the enable line in a trace. -/
def risingE : List Event → Nat
  | [] => 0
  | Event.gpioSet p v :: rest =>
    (if p = 18 then if v = 1 then 1 else 0 else 0) + risingE rest
  | _ :: rest => risingE rest

/-- The enable-line edges of the trace strictly alternate raise, lower,
raise, lower, ...; the flag says whether E is currently high.  At the
end of the trace E must be low again. -/
def ePulsePaired : List Event → Bool → Bool
  | [], inHigh => !inHigh
  | Event.gpioSet p v :: rest, inHigh =>
    if p = 18 then
      if v = 1 then !inHigh && ePulsePaired rest true
      else inHigh && ePulsePaired rest false
    else ePulsePaired rest inHigh
  | _ :: rest, inHigh => ePulsePaired rest inHigh

/-- The environment of the failure scenario from the spec: line 18 (E)
is pre-claimed by another component, every other line is free. -/
def envBusy18 : Nat → Bool := fun p => !(p == 18)

/-- The trace req_gpio produces when every request is granted. -/
def reqOkTrace : List Event :=
  [Event.gpioRequest 4 "RS", Event.gpioRequest 17 "RW",
   Event.gpioRequest 18 "E", Event.gpioRequest 22 "DB4",
   Event.gpioRequest 23 "DB5", Event.gpioRequest 24 "DB6",
   Event.gpioRequest 25 "DB7",
   Event.gpioDirOut 4 0, Event.gpioDirOut 17 0, Event.gpioDirOut 18 0,
   Event.gpioDirOut 22 0, Event.gpioDirOut 23 0, Event.gpioDirOut 24 0,
   Event.gpioDirOut 25 0]

/-- Whenever req_gpio returns 0 its trace is the full success trace:
all seven requests followed by all seven output configurations. -/
theorem req_gpio_ok_trace (env : Nat → Bool)
    (h : (req_gpio env).2 = 0) : req_gpio env = (reqOkTrace, 0) := by
  cases h4 : env 4 <;> cases h17 : env 17 <;> cases h18 : env 18 <;>
    cases h22 : env 22 <;> cases h23 : env 23 <;> cases h24 : env 24 <;>
    cases h25 : env 25 <;> simp_all [req_gpio, reqOkTrace]

/-- The trace of a successful module init (all collaborators grant). -/
def initTrace : List Event :=
  (rpigpio_lcd_minit true true true (fun _ => true) 0).1

/- ---------------------------------------------------------------
Claim theorems.
--------------------------------------------------------------- -/

/-- Claim C1 — the claim is FALSE on the code (code bug).  In the
environment of the failure scenario of the spec (line 18 pre-claimed,
all other lines free), req_gpio fails with -1, yet lines 4 (RS) and
17 (RW), successfully requested earlier in the same call, are still
held when it returns: the failure paths of req_gpio contain no
gpio_free, so partial ownership survives the failed acquire. -/
theorem C1_acquire_leaks_on_failure :
    (req_gpio envBusy18).2 = -1 ∧
    heldAfter envBusy18 (req_gpio envBusy18).1 4 = true ∧
    heldAfter envBusy18 (req_gpio envBusy18).1 17 = true ∧
    freedIn (req_gpio envBusy18).1 4 = false ∧
    freedIn (req_gpio envBusy18).1 17 = false := by
  decide

/-- Claim C2 — the claim is FALSE on the code (code bug).  With the
character device, class and device node all created successfully and
GPIO acquisition then failing (line 18 busy), module init returns on
its error path having called class_destroy and unregister_chrdev but
never device_destroy: the device node created by device_create is not
undone, so it still exists after init returns. -/
theorem C2_device_node_survives_failed_init :
    (req_gpio envBusy18).2 < 0 ∧
    deviceNodeExists (rpigpio_lcd_minit true true true envBusy18 0).1
      = true ∧
    (rpigpio_lcd_minit true true true envBusy18 0).1.contains
      Event.classDestroy = true ∧
    (rpigpio_lcd_minit true true true envBusy18 0).1.contains
      Event.unregisterChrdev = true ∧
    (rpigpio_lcd_minit true true true envBusy18 0).1.contains
      Event.deviceDestroy = false := by
  decide

/-- Claim C3 (confirmed): the initialization sequence latches exactly
the nibbles of reset, startup1, startup2, functionset, displayoff,
clear, entrymode, displayon, home — in that order, high nibble first,
all with RS = 0 — and then exactly the two nibbles of the literal
character payload with RS = 1, after which RS is back at 0. -/
theorem C3_init_sequence_exact :
    latchedNibbles {} lcd_init =
      [(0, hiNib reset), (0, loNib reset),
       (0, hiNib startup1), (0, loNib startup1),
       (0, hiNib startup2), (0, loNib startup2),
       (0, hiNib functionset), (0, loNib functionset),
       (0, hiNib displayoff), (0, loNib displayoff),
       (0, hiNib clear), (0, loNib clear),
       (0, hiNib entry), (0, loNib entry),
       (0, hiNib displayon), (0, loNib displayon),
       (0, hiNib home), (0, loNib home),
       (1, hiNib a), (1, loNib a)] ∧
    (applyTrace {} lcd_init).p4 = 0 := by
  decide

/-- Claim C4 (confirmed): for every command word and every starting pin
state, a transmit latches exactly two nibbles — first bits 0..3 (the
high nibble), then bits 4..7 (the low nibble) — and the enable edges
strictly alternate raise/lower with exactly two rising edges, so each
nibble is followed by exactly one enable pulse. -/
theorem C4_nibble_order (data : Fin 8 → Nat) (s : PinState) :
    latchedNibbles s (lcd_write data) =
      [(s.p4, hiNib data), (s.p4, loNib data)] ∧
    risingE (lcd_write data) = 2 ∧
    ePulsePaired (lcd_write data) false = true := by
  refine ⟨?_, ?_, ?_⟩ <;>
    simp [lcd_write, latchedNibbles, setPin, hiNib, loNib, risingE,
      ePulsePaired]

/-- Claim C5 (confirmed): for every command word, each enable pulse of
a transmit holds E high for at least 50 us before lowering it and then
at least 50 us of settle pass before any further signal change; the
same holds throughout the whole initialization-sequence trace. -/
theorem C5_pulse_width_floor :
    (∀ data : Fin 8 → Nat, enPulsesOk (lcd_write data) = true) ∧
    enPulsesOk lcd_init = true := by
  constructor
  · intro data
    simp [lcd_write, enPulsesOk, delayToNextSet]
  · decide

/-- Claim C6 (confirmed): session open performs no host call at all
(in particular no GPIO request) and returns 0; session close takes the
lock, frees exactly the seven lines 4, 17, 18, 22, 23, 24, 25, releases
the lock, and returns 0. -/
theorem C6_session_open_close :
    lcd_open = ([], 0) ∧
    lcd_release =
      ([Event.lockAcquire,
        Event.gpioFree 4, Event.gpioFree 17, Event.gpioFree 18,
        Event.gpioFree 22, Event.gpioFree 23, Event.gpioFree 24,
        Event.gpioFree 25, Event.lockRelease], 0) ∧
    (∀ p ∈ linePins, freedIn lcd_release.1 p = true) := by
  refine ⟨rfl, rfl, ?_⟩
  decide

/-- Claim C7 (confirmed): for every session state, request and
argument, the ioctl entry performs no host call and returns -EINVAL. -/
theorem C7_ioctl_always_einval (st : SessionState) (cmd arg : Nat) :
    lcd_ioctl st cmd arg = ([], -EINVAL) := by
  rfl

/-- Claim C8 (confirmed): a transmit never drives the RS line (pin 4)
or the RW line (pin 17): replaying its trace from any pin state leaves
both levels exactly as the caller set them. -/
theorem C8_transmit_preserves_rs_rw (data : Fin 8 → Nat)
    (s : PinState) :
    (applyTrace s (lcd_write data)).p4 = s.p4 ∧
    (applyTrace s (lcd_write data)).p17 = s.p17 := by
  constructor <;> simp [lcd_write, applyTrace, setPin]

/-- Claim C9 (confirmed): whenever req_gpio succeeds, its trace
configures every one of the seven lines as an output at level 0 before
returning. -/
theorem C9_success_configures_outputs (env : Nat → Bool)
    (h : (req_gpio env).2 = 0) :
    ∀ p ∈ linePins, Event.gpioDirOut p 0 ∈ (req_gpio env).1 := by
  intro p hp
  rw [req_gpio_ok_trace env h]
  simp [linePins] at hp
  rcases hp with rfl | rfl | rfl | rfl | rfl | rfl | rfl <;> decide

/-- Witness for C9 at the all-grants environment. -/
theorem C9_success_configures_outputs_witness :
    (req_gpio (fun _ => true)).2 = 0 ∧
    ∀ p ∈ linePins,
      Event.gpioDirOut p 0 ∈ (req_gpio (fun _ => true)).1 :=
  ⟨by decide,
   C9_success_configures_outputs (fun _ => true) (by decide)⟩

set_option maxRecDepth 8192 in
/-- Claim C10 (confirmed): in the trace of a fully successful module
init, the lock is acquired and released (inside the initialization
sequence) strictly before the lock-initialization call, and the device
node is created strictly before the lock is initialized. -/
theorem C10_lock_initialized_too_late :
    Event.lockAcquire ∈ initTrace ∧
    Event.lockRelease ∈ initTrace ∧
    Event.lockInit ∈ initTrace ∧
    Event.deviceCreate ∈ initTrace ∧
    initTrace.indexOf Event.lockAcquire
      < initTrace.indexOf Event.lockInit ∧
    initTrace.indexOf Event.lockRelease
      < initTrace.indexOf Event.lockInit ∧
    initTrace.indexOf Event.deviceCreate
      < initTrace.indexOf Event.lockInit := by
  decide

end LcdMod
